import Mathlib

/-!
Shallow embedding of the role-scoped property-management backend
(Express routes in src/routes, Mongoose schemas in src/models) and
proofs about its authorization, occupancy and settlement logic.

HTTP outcomes are mapped to the spec's error taxonomy: 404 responses
become `Outcome.notFound`, 403 become `Outcome.forbidden`, business
400 responses ("Property is not available", "Tenant is not currently
assigned") become `Outcome.invalidState`, and 500 responses (including
exceptions from Mongoose validation or the unique transactionId index
that fall into the catch-all handler) become `Outcome.serverError`.
-/

namespace PropMgmt

/-- Entity identifier, modelling a Mongo ObjectId. -/
abbrev Id := Nat

/-- User roles (userSchema.role enum). -/
inductive Role
  | admin
  | landlord
  | tenant
deriving DecidableEq, Repr

/-- Property status (propertySchema.status enum). -/
inductive PropStatus
  | available
  | occupied
  | maintenance
  | unavailable
deriving DecidableEq, Repr

/-- Rent-schedule status (rentScheduleSchema.status enum). `partPaid`
models the source enum value for a partly covered schedule. -/
inductive RSStatus
  | pending
  | paid
  | overdue
  | partPaid
deriving DecidableEq, Repr

/-- Payment status (paymentSchema.status enum). -/
inductive PayStatus
  | pending
  | completed
  | failed
  | refunded
deriving DecidableEq, Repr

/-- Payment methods (the fixed enum used by schedules and payments). -/
inductive PayMethod
  | online
  | check
  | cash
  | bankTransfer
deriving DecidableEq, Repr

/-- Recurrence frequency (rentScheduleSchema.frequency enum). -/
inductive Freq
  | monthly
  | quarterly
  | yearly
deriving DecidableEq, Repr

/-- A calendar date as JavaScript `Date` exposes it at UTC midnight:
year, zero-based month, one-based day of month. -/
structure JsDate where
  year : Nat
  month : Fin 12
  day : Nat
deriving DecidableEq, Repr

/-- Gregorian leap-year rule, as implemented by the JS date library. -/
def isLeap (y : Nat) : Bool :=
  (y % 4 == 0 && y % 100 != 0) || (y % 400 == 0)

/-- Number of days of zero-based month `m` in year `y`. -/
def daysInMonth (y : Nat) (m : Nat) : Nat :=
  if m = 1 then (if isLeap y then 29 else 28)
  else if m = 3 ∨ m = 5 ∨ m = 8 ∨ m = 10 then 30
  else 31

/-- Absolute month index of a date (year times 12 plus month). -/
def monthIdx (d : JsDate) : Nat := 12 * d.year + d.month.val

/-- Build the date with absolute month index `mi` and day-of-month `day`,
normalizing a day overflow into the following month exactly as the JS
`Date` timestamp arithmetic does for the valid inputs reaching it
(ISO-8601 dates have `day ≤ 31`, so a single carry suffices). -/
def mkNorm (mi : Nat) (day : Nat) : JsDate :=
  if day > daysInMonth (mi / 12) (mi % 12) then
    ⟨(mi + 1) / 12, ⟨(mi + 1) % 12, Nat.mod_lt _ (by decide)⟩,
      day - daysInMonth (mi / 12) (mi % 12)⟩
  else ⟨mi / 12, ⟨mi % 12, Nat.mod_lt _ (by decide)⟩, day⟩

/-- Months advanced per iteration of the bulk-generation loop:
`setMonth(getMonth()+1)`, `setMonth(getMonth()+3)`, or
`setFullYear(getFullYear()+1)` (which is exactly twelve months). -/
def freqStep : Freq → Nat
  | .monthly => 1
  | .quarterly => 3
  | .yearly => 12

/-- One advance of `currentDate` in the bulk-generation loop. -/
def stepDate (f : Freq) (d : JsDate) : JsDate :=
  mkNorm (monthIdx d + freqStep f) d.day

/-- `k`-fold iteration of `stepDate`. -/
def stepIter (f : Freq) : Nat → JsDate → JsDate
  | 0, d => d
  | k + 1, d => stepIter f k (stepDate f d)

/-- Timestamp comparison `a <= b` of two midnight dates: lexicographic
on (year, month, day). -/
def dateLe (a b : JsDate) : Prop :=
  a.year < b.year ∨
    (a.year = b.year ∧
      (a.month.val < b.month.val ∨ (a.month.val = b.month.val ∧ a.day ≤ b.day)))

instance (a b : JsDate) : Decidable (dateLe a b) := by
  unfold dateLe; exact inferInstance

/-- User record; only the fields the verified routes touch are kept
(`tenantInfo.moveInDate` / `tenantInfo.leaseEndDate` are flattened). -/
structure User where
  id : Id
  role : Role
  moveInDate : Option JsDate := none
  leaseEndDate : Option JsDate := none
deriving DecidableEq, Repr

/-- Embedded lease terms of a property. -/
structure LeaseTerms where
  startDate : Option JsDate := none
  endDate : Option JsDate := none
deriving DecidableEq, Repr

/-- Property record (propertySchema), restricted to the fields the
verified routes read or write. -/
structure Property where
  id : Id
  landlord : Id
  currentTenant : Option Id := none
  status : PropStatus := .available
  name : String := ""
  monthlyRent : ℚ := 0
  leaseTerms : LeaseTerms := {}
deriving DecidableEq, Repr

/-- Rent-schedule record (rentScheduleSchema). -/
structure RentSchedule where
  id : Id
  property : Id
  tenant : Id
  amount : ℚ
  dueDate : JsDate
  status : RSStatus := .pending
  paymentMethod : PayMethod := .online
  lateFee : ℚ := 0
  recurring : Bool := true
  frequency : Freq := .monthly
deriving DecidableEq, Repr

/-- Payment record (paymentSchema). -/
structure Payment where
  id : Id
  rentSchedule : Id
  property : Id
  tenant : Id
  amount : ℚ
  paymentDate : JsDate
  paymentMethod : PayMethod
  status : PayStatus
  transactionId : String
deriving DecidableEq, Repr

/-- The entity store backing the routes. -/
structure Store where
  users : List User := []
  properties : List Property := []
  rentSchedules : List RentSchedule := []
  payments : List Payment := []
deriving DecidableEq, Repr

/-- Structured operation outcome, per the spec's error taxonomy. -/
inductive Outcome
  | success
  | notFound
  | forbidden
  | invalidState
  | serverError
deriving DecidableEq, Repr

def findUser (st : Store) (i : Id) : Option User :=
  st.users.find? (fun u => u.id == i)

def findProperty (st : Store) (i : Id) : Option Property :=
  st.properties.find? (fun p => p.id == i)

def findSchedule (st : Store) (i : Id) : Option RentSchedule :=
  st.rentSchedules.find? (fun r => r.id == i)

/-- Modelled from the spec: the `authorize(...roles)` middleware of
src/middleware/auth.js is not among the sources; per the spec's access
matrix a principal whose role is not in the route's list is rejected
with a Forbidden result before the handler runs. -/
def authorize (roles : List Role) (u : User) : Bool :=
  roles.contains u.role

/-- Replace the property with id `pid` (Mongoose `property.save()` after
in-place mutation). -/
def setProperty (st : Store) (pid : Id) (p2 : Property) : Store :=
  { st with properties := st.properties.map (fun q => if q.id == pid then p2 else q) }

/-- Spread-update of leaseTerms: `{...leaseTerms, startDate}` applied only
when `moveInDate` is supplied, then likewise for `endDate`. -/
def updateLeaseTerms (lt : LeaseTerms) (mi le : Option JsDate) : LeaseTerms :=
  let lt1 := match mi with
    | some d => { lt with startDate := some d }
    | none => lt
  match le with
  | some d => { lt1 with endDate := some d }
  | none => lt1

/-- `User.findByIdAndUpdate(tenantId, tenantUpdates)` issued only when at
least one of the two dates was supplied. -/
def mirrorTenantDates (st : Store) (tid : Id) (mi le : Option JsDate) : Store :=
  if mi.isSome || le.isSome then
    { st with users := st.users.map (fun u =>
        if u.id == tid then
          { u with
            moveInDate := match mi with | some d => some d | none => u.moveInDate,
            leaseEndDate := match le with | some d => some d | none => u.leaseEndDate }
        else u) }
  else st

/-- POST /api/tenants/:id/assign-property (src/routes/tenants.js 189-275). -/
def assignProperty (st : Store) (actor : User) (tenantId propertyId : Id)
    (moveInDate leaseEndDate : Option JsDate) : Outcome × Store :=
  if authorize [Role.admin, Role.landlord] actor = false then (.forbidden, st) else
  match findUser st tenantId with
  | none => (.notFound, st)
  | some t =>
    if t.role ≠ Role.tenant then (.notFound, st) else
    match findProperty st propertyId with
    | none => (.notFound, st)
    | some p =>
      if actor.role = Role.landlord ∧ p.landlord ≠ actor.id then (.forbidden, st) else
      if p.status ≠ PropStatus.available then (.invalidState, st) else
      let p2 : Property :=
        { p with
          currentTenant := some tenantId,
          status := PropStatus.occupied,
          leaseTerms := updateLeaseTerms p.leaseTerms moveInDate leaseEndDate }
      (.success, mirrorTenantDates (setProperty st propertyId p2) tenantId moveInDate leaseEndDate)

/-- POST /api/tenants/:id/remove-property (src/routes/tenants.js 280-353). -/
def removeProperty (st : Store) (actor : User) (tenantId propertyId : Id) :
    Outcome × Store :=
  if authorize [Role.admin, Role.landlord] actor = false then (.forbidden, st) else
  match findUser st tenantId with
  | none => (.notFound, st)
  | some t =>
    if t.role ≠ Role.tenant then (.notFound, st) else
    match findProperty st propertyId with
    | none => (.notFound, st)
    | some p =>
      if actor.role = Role.landlord ∧ p.landlord ≠ actor.id then (.forbidden, st) else
      if p.currentTenant ≠ some tenantId then (.invalidState, st) else
      (.success, setProperty st propertyId
        { p with currentTenant := none, status := PropStatus.available, leaseTerms := {} })

/-- Update payload for PUT /api/properties/:id; representative subset of
the optional body fields handed to `findByIdAndUpdate`. -/
structure PropertyUpdate where
  name : Option String := none
  monthlyRent : Option ℚ := none
  status : Option PropStatus := none
deriving DecidableEq, Repr

def applyPropertyUpdate (p : Property) (u : PropertyUpdate) : Property :=
  { p with
    name := u.name.getD p.name,
    monthlyRent := u.monthlyRent.getD p.monthlyRent,
    status := u.status.getD p.status }

/-- PUT /api/properties/:id (src/routes/properties.js 176-233). The route
is gated by `auth` alone; the only role check in the handler is the
landlord-ownership test. -/
def updateProperty (st : Store) (actor : User) (pid : Id) (upd : PropertyUpdate) :
    Outcome × Store :=
  match findProperty st pid with
  | none => (.notFound, st)
  | some p =>
    if actor.role = Role.landlord ∧ p.landlord ≠ actor.id then (.forbidden, st) else
    (.success, setProperty st pid (applyPropertyUpdate p upd))

/-- DELETE /api/properties/:id (src/routes/properties.js 238-270). The
route is gated by `auth` alone; the only role check in the handler is the
landlord-ownership test. -/
def deleteProperty (st : Store) (actor : User) (pid : Id) : Outcome × Store :=
  match findProperty st pid with
  | none => (.notFound, st)
  | some p =>
    if actor.role = Role.landlord ∧ p.landlord ≠ actor.id then (.forbidden, st) else
    (.success, { st with properties := st.properties.filter (fun q => q.id != pid) })

/-- DELETE /api/rent-schedules/:id (src/routes/rentSchedules.js 250-283).
The route is gated by `auth` alone; the handler checks ownership only for
a landlord actor. `populate` of a dangling property reference makes
`rentSchedule.property.landlord` throw, surfacing as a 500. -/
def deleteRentSchedule (st : Store) (actor : User) (sid : Id) : Outcome × Store :=
  match findSchedule st sid with
  | none => (.notFound, st)
  | some rs =>
    if actor.role = Role.landlord then
      match findProperty st rs.property with
      | none => (.serverError, st)
      | some p =>
        if p.landlord ≠ actor.id then (.forbidden, st)
        else (.success, { st with rentSchedules := st.rentSchedules.filter (fun q => q.id != sid) })
    else (.success, { st with rentSchedules := st.rentSchedules.filter (fun q => q.id != sid) })

/-- Property condition of a Mongo query object: either the role-scoped
`{$in: ids}` list or a plain equality written by the propertyId filter. -/
inductive PropCond
  | inIds (ids : List Id)
  | eqId (i : Id)
deriving DecidableEq, Repr

def propCondHolds : PropCond → Id → Bool
  | .inIds ids, i => ids.contains i
  | .eqId j, i => j == i

/-- Ids of the properties owned by landlord `lid`
(`Property.find({landlord}).select('_id')`). -/
def ownedPropertyIds (st : Store) (lid : Id) : List Id :=
  (st.properties.filter (fun p => p.landlord == lid)).map (fun p => p.id)

/-- Optional caller filters of GET /api/rent-schedules. -/
structure RSFilters where
  status : Option RSStatus := none
  propertyId : Option Id := none
  tenantId : Option Id := none
  dueDateFrom : Option JsDate := none
  dueDateTo : Option JsDate := none
deriving DecidableEq, Repr

/-- The query object built by GET /api/rent-schedules. -/
structure RSQuery where
  tenantC : Option Id := none
  propertyC : Option PropCond := none
  statusC : Option RSStatus := none
  dueFrom : Option JsDate := none
  dueTo : Option JsDate := none
deriving DecidableEq, Repr

/-- Query construction of GET /api/rent-schedules (src/routes/
rentSchedules.js 24-44): role-based narrowing first, then the caller's
filters are written into the same object — `query.property = propertyId`
overwrites whatever the role step put there. -/
def buildRSQuery (st : Store) (actor : User) (f : RSFilters) : RSQuery :=
  let q : RSQuery := {}
  let q := if actor.role = Role.tenant then { q with tenantC := some actor.id }
    else if actor.role = Role.landlord then
      { q with propertyC := some (PropCond.inIds (ownedPropertyIds st actor.id)) }
    else q
  let q := match f.status with
    | some s => { q with statusC := some s }
    | none => q
  let q := match f.propertyId with
    | some pid => { q with propertyC := some (PropCond.eqId pid) }
    | none => q
  let q := match f.tenantId with
    | some tid => if actor.role = Role.admin then { q with tenantC := some tid } else q
    | none => q
  let q := match f.dueDateFrom with
    | some d => { q with dueFrom := some d }
    | none => q
  match f.dueDateTo with
  | some d => { q with dueTo := some d }
  | none => q

def rsMatches (q : RSQuery) (r : RentSchedule) : Bool :=
  (match q.tenantC with | some t => r.tenant == t | none => true) &&
  (match q.propertyC with | some c => propCondHolds c r.property | none => true) &&
  (match q.statusC with | some s => r.status == s | none => true) &&
  (match q.dueFrom with | some d => decide (dateLe d r.dueDate) | none => true) &&
  (match q.dueTo with | some d => decide (dateLe r.dueDate d) | none => true)

/-- The set of rent schedules matching the query GET /api/rent-schedules
evaluates; pagination and sorting only truncate and reorder this set. -/
def listRentSchedules (st : Store) (actor : User) (f : RSFilters) : List RentSchedule :=
  st.rentSchedules.filter (rsMatches (buildRSQuery st actor f))

/-- Optional caller filters of GET /api/payments. -/
structure PayFilters where
  status : Option PayStatus := none
  propertyId : Option Id := none
  tenantId : Option Id := none
  paymentMethod : Option PayMethod := none
  paymentDateFrom : Option JsDate := none
  paymentDateTo : Option JsDate := none
deriving DecidableEq, Repr

/-- The query object built by GET /api/payments. -/
structure PayQuery where
  tenantC : Option Id := none
  propertyC : Option PropCond := none
  statusC : Option PayStatus := none
  methodC : Option PayMethod := none
  payFrom : Option JsDate := none
  payTo : Option JsDate := none
deriving DecidableEq, Repr

/-- Query construction of GET /api/payments (src/routes/payments.js
26-47); same overwrite of `query.property` by the propertyId filter. -/
def buildPayQuery (st : Store) (actor : User) (f : PayFilters) : PayQuery :=
  let q : PayQuery := {}
  let q := if actor.role = Role.tenant then { q with tenantC := some actor.id }
    else if actor.role = Role.landlord then
      { q with propertyC := some (PropCond.inIds (ownedPropertyIds st actor.id)) }
    else q
  let q := match f.status with
    | some s => { q with statusC := some s }
    | none => q
  let q := match f.propertyId with
    | some pid => { q with propertyC := some (PropCond.eqId pid) }
    | none => q
  let q := match f.tenantId with
    | some tid => if actor.role = Role.admin then { q with tenantC := some tid } else q
    | none => q
  let q := match f.paymentMethod with
    | some m => { q with methodC := some m }
    | none => q
  let q := match f.paymentDateFrom with
    | some d => { q with payFrom := some d }
    | none => q
  match f.paymentDateTo with
  | some d => { q with payTo := some d }
  | none => q

def payMatches (q : PayQuery) (p : Payment) : Bool :=
  (match q.tenantC with | some t => p.tenant == t | none => true) &&
  (match q.propertyC with | some c => propCondHolds c p.property | none => true) &&
  (match q.statusC with | some s => p.status == s | none => true) &&
  (match q.methodC with | some m => p.paymentMethod == m | none => true) &&
  (match q.payFrom with | some d => decide (dateLe d p.paymentDate) | none => true) &&
  (match q.payTo with | some d => decide (dateLe p.paymentDate d) | none => true)

/-- The set of payments matching the query GET /api/payments evaluates. -/
def listPayments (st : Store) (actor : User) (f : PayFilters) : List Payment :=
  st.payments.filter (payMatches (buildPayQuery st actor f))

/-- Whether a payment with this transactionId already exists (the unique
index of paymentSchema.transactionId rejects a second one). -/
def txExists (st : Store) (tx : String) : Bool :=
  st.payments.any (fun p => p.transactionId == tx)

/-- `RentSchedule.findByIdAndUpdate(id, {status})`. -/
def setScheduleStatus (st : Store) (sid : Id) (s : RSStatus) : Store :=
  { st with rentSchedules := st.rentSchedules.map (fun r =>
      if r.id == sid then { r with status := s } else r) }

/-- The ordered status derivation of src/routes/payments.js 136-144,
as a function of the schedule's full amount, the single payment's
amount, and the previous status only. -/
def derivedStatus (schedAmt amt : ℚ) (old : RSStatus) : RSStatus :=
  if schedAmt ≤ amt then RSStatus.paid
  else if 0 < amt then RSStatus.partPaid
  else old

/-- The status update of src/routes/payments.js 136-144: full cover sets
`paid`, a positive part-payment sets the partly-paid status, zero
leaves the schedule untouched. -/
def settleSchedule (st : Store) (sid : Id) (schedAmt amt : ℚ) : Store :=
  if schedAmt ≤ amt then setScheduleStatus st sid RSStatus.paid
  else if 0 < amt then setScheduleStatus st sid RSStatus.partPaid
  else st

/-- The persistence tail of POST /api/payments (src/routes/payments.js
119-144), run once the access check has passed: `payment.save()` —
where a negative amount is rejected by the schema's `min: 0` validator
and a duplicate `txId` by the unique transactionId index, both throwing
into the catch-all 500 — followed by the schedule status update. -/
def savePayment (st : Store) (rs : RentSchedule) (schedId : Id) (amount : ℚ)
    (method : PayMethod) (txId : String) (now : JsDate) (newId : Id) :
    Outcome × Store :=
  if amount < 0 then (.serverError, st)
  else if txExists st txId then (.serverError, st)
  else
    (.success,
      settleSchedule
        { st with payments := st.payments ++
            [{ id := newId, rentSchedule := schedId, property := rs.property,
               tenant := rs.tenant, amount := amount, paymentDate := now,
               paymentMethod := method, status := PayStatus.completed,
               transactionId := txId }] }
        schedId rs.amount amount)

/-- POST /api/payments (src/routes/payments.js 78-163). `txId` is the
freshly generated transaction identifier, `now` the server clock, and
`newId` the id Mongo assigns to the inserted payment. The access check
mirrors the short-circuit `hasAccess` expression: an admin skips the
property dereference; otherwise a dangling property reference throws
(500) before the landlord/tenant comparison. -/
def recordPayment (st : Store) (actor : User) (schedId : Id) (amount : ℚ)
    (method : PayMethod) (txId : String) (now : JsDate) (newId : Id) :
    Outcome × Store :=
  match findSchedule st schedId with
  | none => (.notFound, st)
  | some rs =>
    if actor.role = Role.admin then
      savePayment st rs schedId amount method txId now newId
    else
      match findProperty st rs.property with
      | none => (.serverError, st)
      | some p =>
        if p.landlord == actor.id || rs.tenant == actor.id then
          savePayment st rs schedId amount method txId now newId
        else (.forbidden, st)

/-- One document pushed by the bulk-generation loop of
POST /api/rent-schedules/bulk; `status` is filled in by the
rentScheduleSchema default `pending` on insert. -/
structure ScheduleDoc where
  property : Id
  tenant : Id
  amount : ℚ
  dueDate : JsDate
  paymentMethod : PayMethod
  recurring : Bool
  frequency : Freq
  status : RSStatus
deriving DecidableEq, Repr

/-- The while loop of src/routes/rentSchedules.js 331-354, with explicit
fuel; `bulkDueDates` supplies fuel that is proven sufficient by
`genDueDates_length_spec`. -/
def genDueDates (endD : JsDate) (f : Freq) : Nat → JsDate → List JsDate
  | 0, _ => []
  | fuel + 1, cur =>
    if dateLe cur endD then cur :: genDueDates endD f fuel (stepDate f cur) else []

def bulkDueDates (startD endD : JsDate) (f : Freq) : List JsDate :=
  genDueDates endD f (monthIdx endD + 1 - monthIdx startD) startD

/-- POST /api/rent-schedules/bulk: the documents handed to `insertMany`
after the generation loop. -/
def bulkSchedules (prop ten : Id) (amount : ℚ) (startD endD : JsDate)
    (f : Freq) (pm : Option PayMethod) : List ScheduleDoc :=
  (bulkDueDates startD endD f).map (fun d =>
    { property := prop, tenant := ten, amount := amount, dueDate := d,
      paymentMethod := pm.getD PayMethod.online, recurring := true,
      frequency := f, status := RSStatus.pending })

/-- The spec's occupancy invariant for one property. -/
def occupancyInv (p : Property) : Prop :=
  (p.status = PropStatus.occupied → p.currentTenant ≠ none) ∧
  (p.status = PropStatus.available → p.currentTenant = none)

instance (p : Property) : Decidable (occupancyInv p) := by
  unfold occupancyInv; exact inferInstance

/-! Concrete sample entities used by witnesses and counterexamples. -/

def exJan1 : JsDate := ⟨2024, 0, 1⟩
def exFeb1 : JsDate := ⟨2024, 1, 1⟩
def exMar1 : JsDate := ⟨2024, 2, 1⟩

def exAdmin : User := { id := 0, role := Role.admin }
def exL1 : User := { id := 1, role := Role.landlord }
def exL2 : User := { id := 2, role := Role.landlord }
def exT3 : User := { id := 3, role := Role.tenant }
def exT4 : User := { id := 4, role := Role.tenant }

def exP10 : Property :=
  { id := 10, landlord := 1, status := PropStatus.occupied, currentTenant := some 3 }

def exP11 : Property := { id := 11, landlord := 2, status := PropStatus.available }

def exS100 : RentSchedule :=
  { id := 100, property := 10, tenant := 3, amount := 100, dueDate := exJan1 }

def exS101 : RentSchedule :=
  { id := 101, property := 11, tenant := 4, amount := 200, dueDate := exJan1 }

def exPay200 : Payment :=
  { id := 200, rentSchedule := 100, property := 10, tenant := 3, amount := 100,
    paymentDate := exJan1, paymentMethod := PayMethod.online,
    status := PayStatus.completed, transactionId := "A" }

def exPay201 : Payment :=
  { id := 201, rentSchedule := 101, property := 11, tenant := 4, amount := 200,
    paymentDate := exJan1, paymentMethod := PayMethod.online,
    status := PayStatus.completed, transactionId := "B" }

def exStore : Store :=
  { users := [exAdmin, exL1, exL2, exT3, exT4],
    properties := [exP10, exP11],
    rentSchedules := [exS100, exS101],
    payments := [exPay200, exPay201] }

/-- Property 12: a second property of landlord 1, available, used to show
double assignment of one tenant. -/
def exP12 : Property := { id := 12, landlord := 1, status := PropStatus.available }

/-- Store for the double-assignment scenario: tenant 3 already occupies
property 10, property 12 of the same landlord is available. -/
def exStoreDouble : Store :=
  { users := [exAdmin, exL1, exT3],
    properties := [exP10, exP12],
    rentSchedules := [],
    payments := [] }

/-- The occupied property 11 after tenant 3 is assigned to it. -/
def exP11occ : Property :=
  { exP11 with
    currentTenant := some 3,
    status := PropStatus.occupied,
    leaseTerms := updateLeaseTerms exP11.leaseTerms none none }

end PropMgmt

namespace PropMgmt

/-! Date arithmetic lemmas supporting the bulk-generation proof. -/

theorem monthIdx_mkNorm_ge (mi day : Nat) : mi ≤ monthIdx (mkNorm mi day) := by
  have h1 := Nat.div_add_mod (mi + 1) 12
  have h2 := Nat.div_add_mod mi 12
  unfold mkNorm
  split <;> simp only [monthIdx] <;> omega

theorem monthIdx_stepDate_gt (f : Freq) (d : JsDate) :
    monthIdx d < monthIdx (stepDate f d) := by
  have h := monthIdx_mkNorm_ge (monthIdx d + freqStep f) d.day
  have hf : 1 ≤ freqStep f := by cases f <;> decide
  unfold stepDate
  omega

theorem monthIdx_stepIter_ge (f : Freq) :
    ∀ (k : Nat) (d : JsDate), monthIdx d + k ≤ monthIdx (stepIter f k d) := by
  intro k
  induction k with
  | zero => intro d; simp [stepIter]
  | succ n ih =>
    intro d
    have h1 := monthIdx_stepDate_gt f d
    have h2 := ih (stepDate f d)
    simp only [stepIter]
    omega

theorem dateLe_monthIdx {a b : JsDate} (h : dateLe a b) : monthIdx a ≤ monthIdx b := by
  have ha := a.month.isLt
  have hb := b.month.isLt
  unfold dateLe at h
  unfold monthIdx
  omega

theorem not_dateLe_monthIdx {a b : JsDate} (h : ¬ dateLe a b) :
    monthIdx b ≤ monthIdx a := by
  have ha := a.month.isLt
  have hb := b.month.isLt
  unfold dateLe at h
  unfold monthIdx
  omega

/-- Each emitted due date is the corresponding iterate of the start date
(holds for any fuel). -/
theorem genDueDates_get (endD : JsDate) (f : Freq) :
    ∀ (fuel : Nat) (cur : JsDate) (k : Nat),
      k < (genDueDates endD f fuel cur).length →
      (genDueDates endD f fuel cur)[k]? = some (stepIter f k cur) := by
  intro fuel
  induction fuel with
  | zero => intro cur k h; simp [genDueDates] at h
  | succ n ih =>
    intro cur k h
    by_cases hc : dateLe cur endD
    · simp only [genDueDates, if_pos hc] at h ⊢
      cases k with
      | zero => simp [stepIter]
      | succ k2 =>
        simp only [List.length_cons, Nat.succ_lt_succ_iff] at h
        simp only [List.getElem?_cons_succ]
        exact ih (stepDate f cur) k2 h
    · simp only [genDueDates, if_neg hc, List.length_nil] at h
      omega

/-- With fuel exceeding the month distance to the end date, the loop
emits exactly the iterates that are at most the end date. -/
theorem genDueDates_length_spec (endD : JsDate) (f : Freq) :
    ∀ (fuel : Nat) (cur : JsDate), monthIdx endD < monthIdx cur + fuel →
      ∀ k : Nat,
        (dateLe (stepIter f k cur) endD ↔ k < (genDueDates endD f fuel cur).length) := by
  intro fuel
  induction fuel with
  | zero =>
    intro cur hf k
    simp only [genDueDates, List.length_nil]
    constructor
    · intro hle
      have h1 := dateLe_monthIdx hle
      have h2 := monthIdx_stepIter_ge f k cur
      omega
    · omega
  | succ n ih =>
    intro cur hf k
    by_cases hc : dateLe cur endD
    · simp only [genDueDates, if_pos hc, List.length_cons]
      cases k with
      | zero =>
        simp only [stepIter]
        exact iff_of_true hc (Nat.succ_pos _)
      | succ k2 =>
        have hstep := monthIdx_stepDate_gt f cur
        have hih := ih (stepDate f cur) (by omega) k2
        simp only [stepIter] at hih ⊢
        rw [Nat.succ_lt_succ_iff]
        exact hih
    · simp only [genDueDates, if_neg hc, List.length_nil]
      constructor
      · intro hle
        exfalso
        cases k with
        | zero => exact hc (by simpa [stepIter] using hle)
        | succ k2 =>
          have h1 := dateLe_monthIdx hle
          have h2 := monthIdx_stepIter_ge f (k2 + 1) cur
          have h3 := not_dateLe_monthIdx hc
          omega
      · omega

theorem bulkDueDates_spec (startD endD : JsDate) (f : Freq) :
    (∀ k : Nat, k < (bulkDueDates startD endD f).length →
        (bulkDueDates startD endD f)[k]? = some (stepIter f k startD))
    ∧ (∀ k : Nat,
        (dateLe (stepIter f k startD) endD ↔ k < (bulkDueDates startD endD f).length)) := by
  constructor
  · intro k h
    exact genDueDates_get endD f _ startD k h
  · intro k
    exact genDueDates_length_spec endD f _ startD (by omega) k

theorem bulkDueDates_empty (startD endD : JsDate) (f : Freq)
    (h : ¬ dateLe startD endD) : bulkDueDates startD endD f = [] := by
  unfold bulkDueDates
  cases hE : monthIdx endD + 1 - monthIdx startD with
  | zero => simp [genDueDates]
  | succ n => simp [genDueDates, if_neg h]

/-- Claim C8: the bulk rent-schedule generator emits, for any start date,
end date and frequency, one schedule per step: the k-th document's dueDate
is the start date advanced k steps (monthly one calendar month per step,
quarterly three, yearly one year), exactly for those k whose advanced
date is at most the end date, each document recurring with status
pending; the 2024-01-01 to 2024-03-01 monthly instance yields exactly the
three dueDates 2024-01-01, 2024-02-01, 2024-03-01; and a start date after
the end date yields an empty batch. -/
theorem claim_C8 :
    (∀ (prop ten : Id) (amount : ℚ) (startD endD : JsDate) (f : Freq)
        (pm : Option PayMethod),
      (∀ k : Nat, k < (bulkSchedules prop ten amount startD endD f pm).length →
        (bulkSchedules prop ten amount startD endD f pm)[k]? = some
          { property := prop, tenant := ten, amount := amount,
            dueDate := stepIter f k startD,
            paymentMethod := pm.getD PayMethod.online, recurring := true,
            frequency := f, status := RSStatus.pending })
      ∧ (∀ k : Nat,
          dateLe (stepIter f k startD) endD ↔
            k < (bulkSchedules prop ten amount startD endD f pm).length))
    ∧ ((bulkSchedules 1 2 100 exJan1 exMar1 Freq.monthly none).map
        ScheduleDoc.dueDate = [exJan1, exFeb1, exMar1])
    ∧ (∀ (prop ten : Id) (amount : ℚ) (startD endD : JsDate) (f : Freq)
        (pm : Option PayMethod),
        ¬ dateLe startD endD → bulkSchedules prop ten amount startD endD f pm = []) := by
  refine ⟨?_, by decide, ?_⟩
  · intro prop ten amount startD endD f pm
    have hs := bulkDueDates_spec startD endD f
    constructor
    · intro k h
      unfold bulkSchedules at h ⊢
      rw [List.length_map] at h
      rw [List.getElem?_map, hs.1 k h]
      rfl
    · intro k
      unfold bulkSchedules
      rw [List.length_map]
      exact hs.2 k
  · intro prop ten amount startD endD f pm h
    unfold bulkSchedules
    rw [bulkDueDates_empty startD endD f h]
    rfl

theorem claim_C8_witness :
    ¬ dateLe exMar1 exJan1 ∧
      bulkSchedules 1 2 100 exMar1 exJan1 Freq.monthly none = [] :=
  ⟨by decide, claim_C8.2.2 1 2 100 exMar1 exJan1 Freq.monthly none (by decide)⟩

/-- Claim C3 (code bug): DELETE /api/rent-schedules/:id is reachable by a
tenant principal — the route has no role middleware and the handler only
checks ownership for landlord actors — so tenant user 4 deletes schedule
100 successfully instead of receiving Forbidden, contradicting the
route's own access comment and the spec's access matrix. -/
theorem claim_C3 :
    exT4.role = Role.tenant ∧
      (deleteRentSchedule exStore exT4 100).1 = Outcome.success ∧
      (deleteRentSchedule exStore exT4 100).2.rentSchedules = [exS101] := by
  decide

/-- Claim C6 (code bug): the admin and landlord rules hold, but the
tenant-has-no-write-access part fails — PUT and DELETE
/api/properties/:id only test landlord ownership, so tenant user 4
updates and deletes property 10 (owned by landlord 1) successfully
instead of being denied. -/
theorem claim_C6 :
    (exT4.role = Role.tenant ∧
      (updateProperty exStore exT4 10 { monthlyRent := some 1 }).1 = Outcome.success ∧
      (updateProperty exStore exT4 10 { monthlyRent := some 1 }).2 ≠ exStore ∧
      (deleteProperty exStore exT4 10).1 = Outcome.success ∧
      (deleteProperty exStore exT4 10).2.properties = [exP11])
    ∧ ((updateProperty exStore exL2 10 { monthlyRent := some 1 }).1 = Outcome.forbidden ∧
      (updateProperty exStore exL2 10 { monthlyRent := some 1 }).2 = exStore ∧
      (deleteProperty exStore exL2 10).1 = Outcome.forbidden ∧
      (deleteProperty exStore exL2 10).2 = exStore)
    ∧ ((updateProperty exStore exAdmin 10 { monthlyRent := some 2 }).1 = Outcome.success ∧
      (deleteProperty exStore exAdmin 11).1 = Outcome.success) := by
  decide

/-- Claim C7 (code bug): the caller-supplied propertyId filter overwrites
the landlord's ownership scoping of the query object, so landlord 1,
listing with propertyId 11 (a property of landlord 2), receives schedule
101 and payment 201, which are tied to a property they do not own. -/
theorem claim_C7 :
    exL1.role = Role.landlord ∧
      findProperty exStore 11 = some exP11 ∧ exP11.landlord ≠ exL1.id ∧
      listRentSchedules exStore exL1 { propertyId := some 11 } = [exS101] ∧
      exS101.property = 11 ∧
      listPayments exStore exL1 { propertyId := some 11 } = [exPay201] ∧
      exPay201.property = 11 := by
  decide

/-- Claim C10: assign-property checks only the target property's
availability, so tenant 3, already the currentTenant of occupied
property 10, is also assigned to available property 12, leaving the
tenant simultaneously the currentTenant of two occupied properties. -/
theorem claim_C10 :
    (assignProperty exStoreDouble exAdmin 3 12 none none).1 = Outcome.success ∧
      (assignProperty exStoreDouble exAdmin 3 12 none none).2.properties.length = 2 ∧
      ∀ p ∈ (assignProperty exStoreDouble exAdmin 3 12 none none).2.properties,
        p.status = PropStatus.occupied ∧ p.currentTenant = some 3 := by
  decide

/-- Counterexample to claim C4 as stated: with property 10 occupied, an
assign attempt by landlord 2 (not the owner) fails with Forbidden, not
InvalidState. -/
theorem claim_C4_cex :
    exP10.status ≠ PropStatus.available ∧
      findProperty exStore 10 = some exP10 ∧
      (assignProperty exStore exL2 3 10 none none).1 = Outcome.forbidden ∧
      Outcome.forbidden ≠ Outcome.invalidState := by
  decide

/-- Counterexample to claim C5 as stated: with property 10's
currentTenant being user 3, a remove attempt for tenant 4 by landlord 2
(not the owner) fails with Forbidden, not InvalidState. -/
theorem claim_C5_cex :
    exP10.currentTenant ≠ some 4 ∧
      findProperty exStore 10 = some exP10 ∧
      (removeProperty exStore exL2 4 10).1 = Outcome.forbidden ∧
      Outcome.forbidden ≠ Outcome.invalidState := by
  decide

theorem mirrorTenantDates_properties (s : Store) (tid : Id) (mi le : Option JsDate) :
    (mirrorTenantDates s tid mi le).properties = s.properties := by
  unfold mirrorTenantDates
  split <;> rfl

/-- Claim C2: after every successful assign-tenant and every successful
remove-tenant operation, the affected property (the one stored under the
targeted id) satisfies the occupancy invariant. -/
theorem claim_C2 (st : Store) (actor : User) (tid pid : Id) (mi le : Option JsDate) :
    ((assignProperty st actor tid pid mi le).1 = Outcome.success →
      ∀ p ∈ (assignProperty st actor tid pid mi le).2.properties,
        p.id = pid → occupancyInv p)
    ∧ ((removeProperty st actor tid pid).1 = Outcome.success →
      ∀ p ∈ (removeProperty st actor tid pid).2.properties,
        p.id = pid → occupancyInv p) := by
  constructor
  · intro hs p hp hid
    rcases hR : assignProperty st actor tid pid mi le with ⟨r, st2⟩
    rw [hR] at hs hp
    dsimp only at hs hp
    subst hs
    unfold assignProperty at hR
    repeat' split at hR
    all_goals injection hR with h1 h2
    all_goals try cases h1
    subst h2
    rw [mirrorTenantDates_properties] at hp
    unfold setProperty at hp
    dsimp only at hp
    obtain ⟨q, hq, hqe⟩ := List.mem_map.mp hp
    by_cases hqi : q.id == pid
    · rw [if_pos hqi] at hqe
      subst hqe
      refine ⟨fun _ => by simp, fun hav => by simp at hav⟩
    · rw [if_neg hqi] at hqe
      subst hqe
      simp only [beq_iff_eq] at hqi
      exact absurd hid hqi
  · intro hs p hp hid
    rcases hR : removeProperty st actor tid pid with ⟨r, st2⟩
    rw [hR] at hs hp
    dsimp only at hs hp
    subst hs
    unfold removeProperty at hR
    repeat' split at hR
    all_goals injection hR with h1 h2
    all_goals try cases h1
    subst h2
    unfold setProperty at hp
    dsimp only at hp
    obtain ⟨q, hq, hqe⟩ := List.mem_map.mp hp
    by_cases hqi : q.id == pid
    · rw [if_pos hqi] at hqe
      subst hqe
      refine ⟨fun hoc => by simp at hoc, fun _ => by simp⟩
    · rw [if_neg hqi] at hqe
      subst hqe
      simp only [beq_iff_eq] at hqi
      exact absurd hid hqi

theorem claim_C2_witness : occupancyInv exP11occ := by
  have h := (claim_C2 exStore exAdmin 3 11 none none).1 (by decide) exP11occ
  exact h (by decide) (by decide)

/-- Claim C4, amended: assigning to a non-available property never
succeeds and leaves the store unchanged; the failure is InvalidState for
an actor that passes the earlier checks (an existing tenant target and an
admin or property-owning-landlord actor), while other actors fail
earlier with Forbidden or NotFound. -/
theorem claim_C4 (st : Store) (actor : User) (tid pid : Id) (mi le : Option JsDate)
    (p : Property) (hp : findProperty st pid = some p)
    (hna : p.status ≠ PropStatus.available) :
    ((assignProperty st actor tid pid mi le).1 ≠ Outcome.success ∧
      (assignProperty st actor tid pid mi le).2 = st)
    ∧ (∀ t : User, findUser st tid = some t → t.role = Role.tenant →
        (actor.role = Role.admin ∨
          (actor.role = Role.landlord ∧ p.landlord = actor.id)) →
        (assignProperty st actor tid pid mi le).1 = Outcome.invalidState) := by
  constructor
  · unfold assignProperty
    rw [hp]
    repeat' split
    all_goals try exact ⟨by simp, rfl⟩
    all_goals simp_all
  · intro t ht htr hrole
    have hauth : authorize [Role.admin, Role.landlord] actor = true := by
      rcases hrole with h | ⟨h, _⟩ <;> simp [authorize, h]
    rcases hrole with hA | ⟨hL, hO⟩ <;>
      · unfold assignProperty
        rw [hp, ht]
        repeat' split
        all_goals simp_all

theorem claim_C4_witness :
    (assignProperty exStore exAdmin 3 10 none none).1 ≠ Outcome.success ∧
      (assignProperty exStore exAdmin 3 10 none none).2 = exStore ∧
      (assignProperty exStore exAdmin 3 10 none none).1 = Outcome.invalidState := by
  have h := claim_C4 exStore exAdmin 3 10 none none exP10 (by decide) (by decide)
  exact ⟨h.1.1, h.1.2, h.2 exT3 (by decide) (by decide) (Or.inl (by decide))⟩

/-- Claim C5, amended: removing a tenant whose id does not match the
property's currentTenant never succeeds and leaves the store unchanged;
the failure is InvalidState for an actor that passes the earlier checks
(an existing tenant target and an admin or property-owning-landlord
actor), while other actors fail earlier with Forbidden or NotFound. -/
theorem claim_C5 (st : Store) (actor : User) (tid pid : Id)
    (p : Property) (hp : findProperty st pid = some p)
    (hmm : p.currentTenant ≠ some tid) :
    ((removeProperty st actor tid pid).1 ≠ Outcome.success ∧
      (removeProperty st actor tid pid).2 = st)
    ∧ (∀ t : User, findUser st tid = some t → t.role = Role.tenant →
        (actor.role = Role.admin ∨
          (actor.role = Role.landlord ∧ p.landlord = actor.id)) →
        (removeProperty st actor tid pid).1 = Outcome.invalidState) := by
  constructor
  · unfold removeProperty
    rw [hp]
    repeat' split
    all_goals try exact ⟨by simp, rfl⟩
    all_goals simp_all
  · intro t ht htr hrole
    have hauth : authorize [Role.admin, Role.landlord] actor = true := by
      rcases hrole with h | ⟨h, _⟩ <;> simp [authorize, h]
    rcases hrole with hA | ⟨hL, hO⟩ <;>
      · unfold removeProperty
        rw [hp, ht]
        repeat' split
        all_goals simp_all

theorem claim_C5_witness :
    (removeProperty exStore exL1 4 10).1 ≠ Outcome.success ∧
      (removeProperty exStore exL1 4 10).2 = exStore ∧
      (removeProperty exStore exL1 4 10).1 = Outcome.invalidState := by
  have h := claim_C5 exStore exL1 4 10 exP10 (by decide) (by decide)
  exact ⟨h.1.1, h.1.2, h.2 exT4 (by decide) (by decide) (Or.inr ⟨by decide, by decide⟩)⟩

/-- Claim C9, amended: a successfully recorded payment's transactionId
did not exist among the stored payments (the unique index guarantees
this), and a colliding transactionId makes the operation fail without
persisting anything — it is not retried with a fresh identifier. -/
theorem savePayment_tx (st : Store) (rs : RentSchedule) (schedId : Id)
    (amount : ℚ) (method : PayMethod) (txId : String) (now : JsDate) (nid : Id)
    (hsucc : (savePayment st rs schedId amount method txId now nid).1 =
      Outcome.success) :
    txExists st txId = false := by
  unfold savePayment at hsucc
  by_cases h1 : amount < 0
  · rw [if_pos h1] at hsucc
    simp at hsucc
  · rw [if_neg h1] at hsucc
    by_cases h2 : txExists st txId
    · rw [if_pos h2] at hsucc
      simp at hsucc
    · simpa using h2

theorem savePayment_collision (st : Store) (rs : RentSchedule) (schedId : Id)
    (amount : ℚ) (method : PayMethod) (txId : String) (now : JsDate) (nid : Id)
    (hex : txExists st txId = true) :
    savePayment st rs schedId amount method txId now nid = (Outcome.serverError, st) := by
  unfold savePayment
  by_cases h1 : amount < 0
  · rw [if_pos h1]
  · rw [if_neg h1, if_pos hex]

/-- Claim C9, amended: a successfully recorded payment's transactionId
did not exist among the stored payments (the unique index guarantees
this), and a colliding transactionId makes the operation fail without
persisting anything — it is not retried with a fresh identifier. -/
theorem claim_C9 (st : Store) (actor : User) (sid : Id) (amt : ℚ) (m : PayMethod)
    (tx : String) (now : JsDate) (nid : Id) :
    ((recordPayment st actor sid amt m tx now nid).1 = Outcome.success →
      txExists st tx = false)
    ∧ (txExists st tx = true →
        (recordPayment st actor sid amt m tx now nid).2 = st ∧
        (recordPayment st actor sid amt m tx now nid).1 ≠ Outcome.success) := by
  constructor
  · intro hs
    rcases hR : recordPayment st actor sid amt m tx now nid with ⟨r, st2⟩
    rw [hR] at hs
    dsimp only at hs
    subst hs
    unfold recordPayment at hR
    repeat' split at hR
    all_goals first
      | (injection hR with h1 h2; cases h1)
      | exact savePayment_tx _ _ _ _ _ _ _ _ (by rw [hR])
  · intro hex
    rcases hR : recordPayment st actor sid amt m tx now nid with ⟨r, st2⟩
    dsimp only
    unfold recordPayment at hR
    repeat' split at hR
    all_goals try rw [savePayment_collision _ _ _ _ _ _ _ _ hex] at hR
    all_goals injection hR with h1 h2
    all_goals subst h1
    all_goals subst h2
    all_goals exact ⟨rfl, by simp⟩

theorem claim_C9_witness :
    (recordPayment exStore exAdmin 100 100 PayMethod.online "A" exJan1 300).2 = exStore ∧
      (recordPayment exStore exAdmin 100 100 PayMethod.online "A" exJan1 300).1 ≠
        Outcome.success :=
  (claim_C9 exStore exAdmin 100 100 PayMethod.online "A" exJan1 300).2 (by decide)

theorem savePayment_schedules (st : Store) (rs : RentSchedule) (schedId : Id)
    (amount : ℚ) (method : PayMethod) (txId : String) (now : JsDate) (nid : Id)
    (hsucc : (savePayment st rs schedId amount method txId now nid).1 =
      Outcome.success) :
    (savePayment st rs schedId amount method txId now nid).2.rentSchedules
      = if rs.amount ≤ amount ∨ 0 < amount then
          st.rentSchedules.map (fun r =>
            if r.id == schedId then
              { r with status := derivedStatus rs.amount amount rs.status }
            else r)
        else st.rentSchedules := by
  unfold savePayment at hsucc ⊢
  by_cases h1 : amount < 0
  · rw [if_pos h1] at hsucc
    simp at hsucc
  · rw [if_neg h1] at hsucc ⊢
    by_cases h2 : txExists st txId
    · rw [if_pos h2] at hsucc
      simp at hsucc
    · rw [if_neg h2]
      dsimp only
      unfold settleSchedule
      by_cases h3 : rs.amount ≤ amount
      · rw [if_pos h3, if_pos (Or.inl h3)]
        unfold setScheduleStatus
        simp only [derivedStatus, if_pos h3]
      · rw [if_neg h3]
        by_cases h4 : 0 < amount
        · rw [if_pos h4, if_pos (Or.inr h4)]
          unfold setScheduleStatus
          simp only [derivedStatus, if_neg h3, if_pos h4]
        · rw [if_neg h4, if_neg (not_or.mpr ⟨h3, h4⟩)]

theorem recordPayment_schedules (st : Store) (actor : User) (schedId : Id)
    (amount : ℚ) (method : PayMethod) (txId : String) (now : JsDate) (nid : Id)
    (rs : RentSchedule) (hfind : findSchedule st schedId = some rs)
    (hsucc : (recordPayment st actor schedId amount method txId now nid).1 =
      Outcome.success) :
    (recordPayment st actor schedId amount method txId now nid).2.rentSchedules
      = if rs.amount ≤ amount ∨ 0 < amount then
          st.rentSchedules.map (fun r =>
            if r.id == schedId then
              { r with status := derivedStatus rs.amount amount rs.status }
            else r)
        else st.rentSchedules := by
  rcases hR : recordPayment st actor schedId amount method txId now nid with ⟨r, st2⟩
  rw [hR] at hsucc
  dsimp only at hsucc ⊢
  subst hsucc
  unfold recordPayment at hR
  rw [hfind] at hR
  dsimp only at hR
  repeat' split at hR
  all_goals first
    | (injection hR with h1 h2; cases h1)
    | (have h2 : (savePayment st rs schedId amount method txId now nid).2 = st2 := by
        rw [hR]
       rw [← h2]
       exact savePayment_schedules st rs schedId amount method txId now nid (by rw [hR]))

/-- Claim C1: a successfully recorded payment drives the schedule's new
status solely by comparing this payment's amount with the schedule's
full amount, in the handler's order (at least the full amount: paid;
otherwise positive: partly paid; otherwise: unchanged); the stored
payment history plays no role — any store with the same users,
properties and schedules but a different payment list yields the same
schedule statuses. -/
theorem claim_C1 (st : Store) (actor : User) (schedId : Id) (amount : ℚ)
    (method : PayMethod) (txId : String) (now : JsDate) (nid : Id)
    (rs : RentSchedule) (hfind : findSchedule st schedId = some rs)
    (hsucc : (recordPayment st actor schedId amount method txId now nid).1 =
      Outcome.success) :
    ((recordPayment st actor schedId amount method txId now nid).2.rentSchedules
      = if rs.amount ≤ amount ∨ 0 < amount then
          st.rentSchedules.map (fun r =>
            if r.id == schedId then
              { r with status := derivedStatus rs.amount amount rs.status }
            else r)
        else st.rentSchedules)
    ∧ ∀ (stB : Store) (txB : String) (nidB : Id) (nowB : JsDate),
        stB.users = st.users → stB.properties = st.properties →
        stB.rentSchedules = st.rentSchedules →
        (recordPayment stB actor schedId amount method txB nowB nidB).1 =
          Outcome.success →
        (recordPayment stB actor schedId amount method txB nowB nidB).2.rentSchedules
          = (recordPayment st actor schedId amount method txId now nid).2.rentSchedules := by
  have h1 := recordPayment_schedules st actor schedId amount method txId now nid rs
    hfind hsucc
  refine ⟨h1, ?_⟩
  intro stB txB nidB nowB hu hp hr hsB
  have hfindB : findSchedule stB schedId = some rs := by
    unfold findSchedule at hfind ⊢
    rw [hr]
    exact hfind
  have h2 := recordPayment_schedules stB actor schedId amount method txB nowB nidB rs
    hfindB hsB
  rw [h1, h2, hr]

theorem claim_C1_witness :
    (recordPayment exStore exAdmin 100 100 PayMethod.online "C" exJan1 300).2.rentSchedules
      = if exS100.amount ≤ (100 : ℚ) ∨ (0 : ℚ) < (100 : ℚ) then
          exStore.rentSchedules.map (fun r =>
            if r.id == 100 then
              { r with status := derivedStatus exS100.amount 100 exS100.status }
            else r)
        else exStore.rentSchedules :=
  (claim_C1 exStore exAdmin 100 100 PayMethod.online "C" exJan1 300 exS100
    (by decide) (by decide)).1

/-- Counterexample to claim C9 as stated: a transactionId collision is
not retried — recording a payment whose generated id equals the existing
payment 200's id "A" surfaces as a generic server failure and persists
nothing. -/
theorem claim_C9_cex :
    txExists exStore "A" = true ∧
      recordPayment exStore exAdmin 100 100 PayMethod.online "A" exJan1 300 =
        (Outcome.serverError, exStore) ∧
      Outcome.serverError ≠ Outcome.success := by
  decide

end PropMgmt
